import Mathlib

/-!
Verification development for the dns-orchestrator client slice: the
domain-scoped record cache and pagination controller, the search debounce
gate, the account store (deleteAccount, checkRestoreStatus) and the startup
restore poller.

Sources embedded here:
- src/components/dns/DnsRecordTable.tsx (sortedRecords, debouncedSearch,
  handleSearchChange, handleTypeChange, clearFilters, handleObserver);
- the account store (deleteAccount, checkRestoreStatus, fetchAccounts);
- the dns record store (fetchRecords and fetchMoreRecords) and the domain
  store (clearAccountCache) plus the recent-domains helper are not part of
  the provided sources; those operations are modelled from the spec, and
  each such definition carries a doc comment saying so.

The code runs on a single-threaded cooperative scheduler: interleaving
happens only at awaits and timer callbacks.  Asynchronous operations are
embedded as explicit state-passing functions parameterised by the outcome
of the remote call, and timer-driven code as a small-step event semantics
over an explicit state type.
-/

namespace DnsOrchestrator

/-- A DNS record as consumed by the table view.  The source type has more
fields (proxied, remark, ...); only the four fields read by the sort
comparator plus the identifier are carried here.  The ttl is a JS number,
embedded as Int so that the comparator expression aVal - bVal is literal. -/
structure DnsRecord where
  id : String
  type : String
  name : String
  value : String
  ttl : Int
deriving Repr, DecidableEq

/-- Sort fields of the table, DnsRecordTable.tsx line 38. -/
inductive SortField
  | type
  | name
  | value
  | ttl
deriving Repr, DecidableEq

/-- Sort directions; the null case of the source union is carried by
Option at the use sites. -/
inductive SortDirection
  | asc
  | desc
deriving Repr, DecidableEq

/-- String.prototype.localeCompare embedded as the byte-lexicographic
comparison returning -1, 0 or 1.  Which total preorder the locale induces
is irrelevant to the claims proved below. -/
def localeCompare (a b : String) : Int :=
  match compare a b with
  | .lt => -1
  | .eq => 0
  | .gt => 1

/-- The comparator body of sortedRecords, DnsRecordTable.tsx lines 160-191:
select aVal and bVal by sortField; numeric fields compare by subtraction,
string fields by localeCompare, negated for the descending direction. -/
def recordComparator (f : SortField) (d : SortDirection) (a b : DnsRecord) : Int :=
  match f with
  | .ttl =>
    match d with
    | .asc => a.ttl - b.ttl
    | .desc => b.ttl - a.ttl
  | .type =>
    let comparison := localeCompare a.type b.type
    match d with
    | .asc => comparison
    | .desc => -comparison
  | .name =>
    let comparison := localeCompare a.name b.name
    match d with
    | .asc => comparison
    | .desc => -comparison
  | .value =>
    let comparison := localeCompare a.value b.value
    match d with
    | .asc => comparison
    | .desc => -comparison

/-- sortedRecords, DnsRecordTable.tsx lines 157-192.  When no sort field or
direction is active the records list itself is returned; otherwise the
source copies the list with a spread and sorts the copy in place with the
comparator.  The copy-then-sort is embedded as the pure stable mergeSort
with the predicate comparator-result at most zero, which is exactly the
keep-a-before-b criterion of the ES2019 stable Array sort. -/
def sortedRecords (records : List DnsRecord) (sortField : Option SortField)
    (sortDirection : Option SortDirection) : List DnsRecord :=
  match sortField, sortDirection with
  | some f, some d => records.mergeSort (fun a b => recordComparator f d a b ≤ 0)
  | _, _ => records

/-- Sample record used by concrete witnesses. -/
def sampleRecordA : DnsRecord :=
  { id := "r1", type := "A", name := "www", value := "1.2.3.4", ttl := 600 }

/-- Second sample record used by concrete witnesses. -/
def sampleRecordB : DnsRecord :=
  { id := "r2", type := "AAAA", name := "api", value := "::1", ttl := 120 }

/-- C9: the sorted projection is read-only.  When no sort field or no sort
direction is active, sortedRecords is exactly the records list of the
cache; when a sort is active it is a permutation of that list (same
multiset of records).  The source computes the active case on a spread
copy, never on the records array itself, which is what the purely
functional embedding of sortedRecords captures: the input list is not
mutated, views receive a derived value. -/
theorem C9_sorted_projection_read_only (records : List DnsRecord)
    (sortField : Option SortField) (sortDirection : Option SortDirection) :
    ((sortField = none ∨ sortDirection = none) →
      sortedRecords records sortField sortDirection = records) ∧
    (sortedRecords records sortField sortDirection).Perm records := by
  constructor
  · intro h
    cases sortField with
    | none => cases sortDirection <;> rfl
    | some f =>
      cases sortDirection with
      | none => rfl
      | some d =>
        rcases h with h | h <;> exact absurd h (by simp)
  · cases sortField with
    | none => cases sortDirection <;> exact List.Perm.refl _
    | some f =>
      cases sortDirection with
      | none => exact List.Perm.refl _
      | some d => exact List.mergeSort_perm _ _

/-- Witness for C9 at a concrete records list: the inactive projection is
the list itself and the active projection is one of its permutations. -/
theorem C9_sorted_projection_read_only_witness :
    (sortedRecords [sampleRecordA, sampleRecordB] none none =
      [sampleRecordA, sampleRecordB]) ∧
    (sortedRecords [sampleRecordA, sampleRecordB] (some .ttl)
      (some .asc)).Perm [sampleRecordA, sampleRecordB] :=
  ⟨(C9_sorted_projection_read_only [sampleRecordA, sampleRecordB] none none).1
      (Or.inl rfl),
    (C9_sorted_projection_read_only [sampleRecordA, sampleRecordB] (some .ttl)
      (some .asc)).2⟩

/-! ## Record cache and fetch sequencing

The dns record store (fetchRecords and fetchMoreRecords) is not among the
provided sources; only its consumers are (DnsRecordTable.tsx reads records,
isLoading, isLoadingMore, hasMore, totalCount and calls fetchRecords and
fetchMoreRecords).  The store operations below are therefore modelled from
the spec, sections 4.1 and 4.3, and the claims touching them are settled
against this model. -/

/-- Composite cache key, spec section 3. -/
structure RecordCacheKey where
  accountId : String
  domainId : String
deriving Repr, DecidableEq

/-- One page of the list_records remote result, spec section 6. -/
structure PageResult where
  items : List DnsRecord
  totalCount : Nat
  hasMore : Bool
deriving Repr, DecidableEq

/-- State of the record store.  appendsInFlight is a ghost counter of
outstanding append requests, used only to state the single-in-flight-append
invariant; the source tracks the same information as isLoadingMore. -/
structure RecordStore where
  loadGeneration : Nat
  activeKey : Option RecordCacheKey
  records : List DnsRecord
  totalCount : Nat
  hasMore : Bool
  filterKeyword : String
  filterType : String
  cursor : Nat
  isLoading : Bool
  isLoadingMore : Bool
  appendsInFlight : Nat
deriving Repr, DecidableEq

/-- A fetch token, spec section 4.1: it captures the loadGeneration at
issue time together with the key; it also carries the request filters so
that an accepted commit can echo the filters used, spec section 4.3. -/
structure FetchToken where
  key : RecordCacheKey
  gen : Nat
  keyword : String
  rtype : String
deriving Repr, DecidableEq

/-- Modelled from the spec: the FetchSequencer acceptance gate of section
4.1 — a commit is accepted unless the current loadGeneration has advanced
past the token generation or the key is no longer the active key. -/
def commitAcceptable (st : RecordStore) (t : FetchToken) : Prop :=
  st.activeKey = some t.key ∧ t.gen = st.loadGeneration

instance (st : RecordStore) (t : FetchToken) : Decidable (commitAcceptable st t) := by
  unfold commitAcceptable
  infer_instance

/-- Modelled from the spec: the request-issuing half of loadFull, spec
section 4.3 — increments loadGeneration, clears records, marks the full
fetch in flight and issues a token for the response. -/
def loadFullBegin (st : RecordStore) (key : RecordCacheKey) (keyword rtype : String) :
    RecordStore × FetchToken :=
  let gen := st.loadGeneration + 1
  ({ st with loadGeneration := gen, activeKey := some key, records := [],
             isLoading := true, cursor := 0 },
   { key := key, gen := gen, keyword := keyword, rtype := rtype })

/-- Modelled from the spec: the commit half of loadFull, spec sections 4.1
and 4.3 — an accepted commit replaces records, totalCount and hasMore and
echoes the filters used; a rejected commit discards the result and leaves
the state untouched. -/
def loadFullCommit (st : RecordStore) (t : FetchToken) (page : PageResult) :
    RecordStore × Bool :=
  if commitAcceptable st t then
    ({ st with records := page.items, totalCount := page.totalCount,
               hasMore := page.hasMore, filterKeyword := t.keyword,
               filterType := t.rtype, cursor := page.items.length,
               isLoading := false }, true)
  else
    (st, false)

/-- Modelled from the spec: the request-issuing half of loadMore, spec
section 4.3 — a no-op when hasMore is false or a full or append fetch is
already in flight; otherwise it marks the append in flight and issues a
token at the current generation with the current filters. -/
def loadMoreBegin (st : RecordStore) (key : RecordCacheKey) :
    RecordStore × Option FetchToken :=
  if st.hasMore = false ∨ st.isLoading = true ∨ st.isLoadingMore = true then
    (st, none)
  else
    ({ st with isLoadingMore := true, appendsInFlight := st.appendsInFlight + 1 },
     some { key := key, gen := st.loadGeneration, keyword := st.filterKeyword,
            rtype := st.filterType })

/-- Modelled from the spec: the commit half of loadMore, spec section 4.3 —
an accepted commit appends the page items, advances the cursor and
recomputes hasMore; a rejected commit discards the data.  Either way the
append request is resolved, so the in-flight append flag clears. -/
def loadMoreCommit (st : RecordStore) (t : FetchToken) (page : PageResult) :
    RecordStore × Bool :=
  if commitAcceptable st t then
    ({ st with records := st.records ++ page.items, totalCount := page.totalCount,
               hasMore := page.hasMore, cursor := st.cursor + page.items.length,
               isLoadingMore := false,
               appendsInFlight := st.appendsInFlight - 1 }, true)
  else
    ({ st with isLoadingMore := false,
               appendsInFlight := st.appendsInFlight - 1 }, false)

/-- handleObserver, DnsRecordTable.tsx lines 111-119: the infinite-scroll
sentinel callback calls fetchMoreRecords only when the sentinel intersects,
hasMore holds and no append is already loading. -/
def handleObserver (isIntersecting : Bool) (st : RecordStore) (key : RecordCacheKey) :
    RecordStore × Option FetchToken :=
  if isIntersecting = true ∧ st.hasMore = true ∧ st.isLoadingMore = false then
    loadMoreBegin st key
  else
    (st, none)

/-- Events of the record-store trace semantics: request issues and response
resolutions may interleave arbitrarily, which is exactly the cooperative
concurrency of the source (suspension points are the remote awaits). -/
inductive StoreEvent
  | fullBegin (key : RecordCacheKey) (keyword rtype : String)
  | fullResolve (t : FetchToken) (page : PageResult)
  | moreBegin (key : RecordCacheKey)
  | observe (isIntersecting : Bool) (key : RecordCacheKey)
  | moreResolve (t : FetchToken) (page : PageResult)

/-- One step of the record-store machine. -/
def stepStore (st : RecordStore) (e : StoreEvent) : RecordStore :=
  match e with
  | .fullBegin k kw ty => (loadFullBegin st k kw ty).1
  | .fullResolve t p => (loadFullCommit st t p).1
  | .moreBegin k => (loadMoreBegin st k).1
  | .observe i k => (handleObserver i st k).1
  | .moreResolve t p => (loadMoreCommit st t p).1

/-- Run a list of record-store events. -/
def runStore (st : RecordStore) : List StoreEvent → RecordStore
  | [] => st
  | e :: es => runStore (stepStore st e) es

/-- The store state before any fetch. -/
def initialRecordStore : RecordStore :=
  { loadGeneration := 0, activeKey := none, records := [], totalCount := 0,
    hasMore := false, filterKeyword := "", filterType := "", cursor := 0,
    isLoading := false, isLoadingMore := false, appendsInFlight := 0 }

/-- The ghost append counter always mirrors the isLoadingMore flag. -/
def appendFlagInv (st : RecordStore) : Prop :=
  st.appendsInFlight = (bif st.isLoadingMore then 1 else 0)

theorem stepStore_appendFlagInv (st : RecordStore) (e : StoreEvent)
    (h : appendFlagInv st) : appendFlagInv (stepStore st e) := by
  unfold appendFlagInv at h ⊢
  cases e with
  | fullBegin k kw ty => simpa [stepStore, loadFullBegin] using h
  | fullResolve t p =>
    by_cases hc : commitAcceptable st t <;>
      simpa [stepStore, loadFullCommit, hc] using h
  | moreBegin k =>
    cases h1 : st.hasMore <;> cases h2 : st.isLoading <;> cases h3 : st.isLoadingMore <;>
      rw [h3] at h <;> simp only [cond_false, cond_true] at h <;>
        simp [stepStore, loadMoreBegin, h1, h2, h3, h]
  | observe i k =>
    by_cases ho : i = true ∧ st.hasMore = true ∧ st.isLoadingMore = false
    · obtain ⟨hi, h1, h3⟩ := ho
      rw [h3] at h
      simp only [cond_false] at h
      cases h2 : st.isLoading <;>
        simp [stepStore, handleObserver, hi, h1, h3, loadMoreBegin, h2, h]
    · simpa [stepStore, handleObserver, ho] using h
  | moreResolve t p =>
    cases hm : st.isLoadingMore <;> rw [hm] at h <;>
      simp only [cond_false, cond_true] at h <;>
      by_cases hc : commitAcceptable st t <;>
        simp [stepStore, loadMoreCommit, hc, h]

theorem runStore_appendFlagInv (evts : List StoreEvent) (st : RecordStore)
    (h : appendFlagInv st) : appendFlagInv (runStore st evts) := by
  induction evts generalizing st with
  | nil => exact h
  | cons e es ih => exact ih _ (stepStore_appendFlagInv st e h)

/-- C8: loadMore is a no-op when hasMore is false or a full or append fetch
is in flight; the infinite-scroll trigger obeys the same guard; along every
event trace at most one append request is outstanding; and per state at
most one full-fetch token is still committable — a new full fetch begin
invalidates every earlier-issued token, appends included. -/
theorem C8_load_more_noop_single_inflight :
    (∀ (st : RecordStore) (key : RecordCacheKey),
      (st.hasMore = false ∨ st.isLoading = true ∨ st.isLoadingMore = true) →
        loadMoreBegin st key = (st, none)) ∧
    (∀ (st : RecordStore) (key : RecordCacheKey) (i : Bool),
      (st.hasMore = false ∨ st.isLoading = true ∨ st.isLoadingMore = true) →
        handleObserver i st key = (st, none)) ∧
    (∀ evts : List StoreEvent,
      (runStore initialRecordStore evts).appendsInFlight ≤ 1) ∧
    (∀ (st : RecordStore) (t₁ t₂ : FetchToken),
      commitAcceptable st t₁ → commitAcceptable st t₂ → t₁.gen = t₂.gen) ∧
    (∀ (st : RecordStore) (key : RecordCacheKey) (kw ty : String) (t : FetchToken),
      t.gen ≤ st.loadGeneration →
        ¬ commitAcceptable (loadFullBegin st key kw ty).1 t) := by
  refine ⟨?_, ?_, ?_, ?_, ?_⟩
  · intro st key h
    rcases h with h | h | h <;> simp [loadMoreBegin, h]
  · intro st key i h
    by_cases hc : i = true ∧ st.hasMore = true ∧ st.isLoadingMore = false
    · rcases h with h | h | h
      · exact absurd hc.2.1 (by simp [h])
      · simp [handleObserver, hc, loadMoreBegin, h]
      · exact absurd hc.2.2 (by simp [h])
    · simp [handleObserver, hc]
  · intro evts
    have h := runStore_appendFlagInv evts initialRecordStore (by rfl)
    unfold appendFlagInv at h
    rw [h]
    cases (runStore initialRecordStore evts).isLoadingMore <;> simp
  · intro st t₁ t₂ h₁ h₂
    rw [h₁.2, h₂.2]
  · intro st key kw ty t hle hacc
    have := hacc.2
    simp only [loadFullBegin] at this
    omega

/-- A concrete key used by witnesses. -/
def sampleKey : RecordCacheKey := { accountId := "acc1", domainId := "dom1" }

/-- Witness for C8 at concrete inputs: in the initial store (hasMore false)
loadMore and the scroll trigger are no-ops, a concrete trace keeps at most
one append outstanding, and a concrete superseded token is rejected. -/
theorem C8_load_more_noop_single_inflight_witness :
    loadMoreBegin initialRecordStore sampleKey = (initialRecordStore, none) ∧
    handleObserver true initialRecordStore sampleKey = (initialRecordStore, none) ∧
    (runStore initialRecordStore
      [.fullBegin sampleKey "" "", .moreBegin sampleKey,
       .moreBegin sampleKey]).appendsInFlight ≤ 1 ∧
    ¬ commitAcceptable (loadFullBegin initialRecordStore sampleKey "" "").1
      { key := sampleKey, gen := 0, keyword := "", rtype := "" } :=
  ⟨C8_load_more_noop_single_inflight.1 initialRecordStore sampleKey (Or.inl rfl),
   C8_load_more_noop_single_inflight.2.1 initialRecordStore sampleKey true (Or.inl rfl),
   C8_load_more_noop_single_inflight.2.2.1 _,
   C8_load_more_noop_single_inflight.2.2.2.2 initialRecordStore sampleKey "" ""
     { key := sampleKey, gen := 0, keyword := "", rtype := "" } (Nat.le_refl 0)⟩

/-- Erase the generation counter, leaving the user-visible cache content:
records, counts, flags, filters, cursor and key. -/
def eraseGen (st : RecordStore) : RecordStore :=
  { st with loadGeneration := 0 }

/-- C1: stale-response rejection.  Two loadFull calls on the same key issue
strictly increasing generations; after the later response commits, the
earlier response is rejected and mutates nothing, and the resulting cache
content equals the content produced by the later call alone.  In general a
response belonging to an older generation never mutates shared state. -/
theorem C1_stale_response_rejection
    (st0 : RecordStore) (key : RecordCacheKey) (kw1 ty1 kw2 ty2 : String)
    (p1 p2 : PageResult) :
    (let s1 := loadFullBegin st0 key kw1 ty1
     let s2 := loadFullBegin s1.1 key kw2 ty2
     let s3 := loadFullCommit s2.1 s2.2 p2
     let s4 := loadFullCommit s3.1 s1.2 p1
     let alone := loadFullCommit (loadFullBegin st0 key kw2 ty2).1
       (loadFullBegin st0 key kw2 ty2).2 p2
     s1.2.gen < s2.2.gen ∧ s3.2 = true ∧ s4.2 = false ∧ s4.1 = s3.1 ∧
       eraseGen s4.1 = eraseGen alone.1) ∧
    (∀ (st : RecordStore) (t : FetchToken) (p : PageResult),
      t.gen < st.loadGeneration → loadFullCommit st t p = (st, false)) := by
  constructor
  · refine ⟨by simp [loadFullBegin], ?_, ?_, ?_, ?_⟩
    · simp [loadFullBegin, loadFullCommit, commitAcceptable]
    · simp [loadFullBegin, loadFullCommit, commitAcceptable]
    · simp [loadFullBegin, loadFullCommit, commitAcceptable]
    · simp [loadFullBegin, loadFullCommit, commitAcceptable, eraseGen]
  · intro st t p h
    have hne : ¬ commitAcceptable st t := fun hc => Nat.ne_of_lt h hc.2
    simp [loadFullCommit, hne]

/-- Witness for C1: the general staleness clause applied to a concrete
state holding generation one and a token of generation zero. -/
theorem C1_stale_response_rejection_witness :
    loadFullCommit (loadFullBegin initialRecordStore sampleKey "" "").1
      { key := sampleKey, gen := 0, keyword := "a", rtype := "" }
      { items := [sampleRecordA], totalCount := 1, hasMore := false } =
      ((loadFullBegin initialRecordStore sampleKey "" "").1, false) :=
  (C1_stale_response_rejection initialRecordStore sampleKey "" "" "" ""
      { items := [], totalCount := 0, hasMore := false }
      { items := [], totalCount := 0, hasMore := false }).2
    (loadFullBegin initialRecordStore sampleKey "" "").1
    { key := sampleKey, gen := 0, keyword := "a", rtype := "" }
    { items := [sampleRecordA], totalCount := 1, hasMore := false }
    (by simp [loadFullBegin, initialRecordStore])

/-! ## Search debounce gate and filter intents

Embedded from DnsRecordTable.tsx lines 78-101: debouncedSearch (a
use-debounce trailing-edge timer with a 300 ms quiet period: every call
cancels the pending timer and reschedules it with the latest argument),
handleSearchChange, handleTypeChange and clearFilters.  Real time is
abstracted into event order: a burst of inputs inside the quiet period
followed by silence is a run of search events followed by one fire event,
because each input resets the timer and the timer can only expire once no
further input arrives. -/

/-- One fetchRecords invocation as recorded by the fetch log: the keyword
and type arguments passed to it (account and domain are fixed props of the
component). -/
structure FetchCall where
  keyword : String
  rtype : String
deriving Repr, DecidableEq

/-- Local view state around the debounce gate: the search input echo, the
selected type, the argument held by the pending debounce timer if one is
scheduled, and the log of fetchRecords invocations. -/
structure TableState where
  searchInput : String
  selectedType : String
  pendingKeyword : Option String
  fetchLog : List FetchCall
deriving Repr, DecidableEq

/-- handleSearchChange, DnsRecordTable.tsx lines 84-87: update the input
echo immediately and (re)schedule the debounced fetch with this value,
cancelling any previously pending timer. -/
def handleSearchChange (st : TableState) (value : String) : TableState :=
  { st with searchInput := value, pendingKeyword := some value }

/-- Expiry of the debounce quiet period, DnsRecordTable.tsx lines 79-81:
the scheduled callback runs fetchRecords with the recorded keyword and the
current selected type (use-debounce always invokes the latest closure), and
the timer is spent. -/
def debounceFire (st : TableState) : TableState :=
  match st.pendingKeyword with
  | some k =>
    { st with pendingKeyword := none,
              fetchLog := st.fetchLog ++ [{ keyword := k, rtype := st.selectedType }] }
  | none => st

/-- handleTypeChange, DnsRecordTable.tsx lines 90-94: toggle the type and
fetch immediately with the current search input.  Note that the source does
not touch the debounced timer here. -/
def handleTypeChange (st : TableState) (ty : String) : TableState :=
  let newType := if st.selectedType = ty then "" else ty
  { st with selectedType := newType,
            fetchLog := st.fetchLog ++ [{ keyword := st.searchInput, rtype := newType }] }

/-- clearFilters, DnsRecordTable.tsx lines 97-101: reset both filters and
fetch immediately with empty filters.  The source does not touch the
debounced timer here either. -/
def clearFilters (st : TableState) : TableState :=
  { st with searchInput := "", selectedType := "",
            fetchLog := st.fetchLog ++ [{ keyword := "", rtype := "" }] }

/-- User-visible events at the debounce gate. -/
inductive TableEvent
  | search (value : String)
  | typeClick (ty : String)
  | clearClick
  | fire

/-- One step of the debounce-gate machine. -/
def stepTable (st : TableState) : TableEvent → TableState
  | .search v => handleSearchChange st v
  | .typeClick ty => handleTypeChange st ty
  | .clearClick => clearFilters st
  | .fire => debounceFire st

/-- Run a list of debounce-gate events. -/
def runTable (st : TableState) : List TableEvent → TableState
  | [] => st
  | e :: es => runTable (stepTable st e) es

/-- The component state before any input. -/
def initialTableState : TableState :=
  { searchInput := "", selectedType := "", pendingKeyword := none, fetchLog := [] }

theorem runTable_append (st : TableState) (l₁ l₂ : List TableEvent) :
    runTable st (l₁ ++ l₂) = runTable (runTable st l₁) l₂ := by
  induction l₁ generalizing st with
  | nil => rfl
  | cons e es ih => simpa [runTable] using ih (stepTable st e)

theorem runTable_search_burst (ks : List String) (k : String) (st : TableState)
    (h : ks.getLast? = some k) :
    runTable st (ks.map TableEvent.search) =
      { st with searchInput := k, pendingKeyword := some k } := by
  induction ks generalizing st with
  | nil => simp at h
  | cons a tl ih =>
    cases tl with
    | nil =>
      simp only [List.getLast?_singleton, Option.some.injEq] at h
      subst h
      rfl
    | cons b tl2 =>
      rw [List.getLast?_cons_cons] at h
      show runTable (handleSearchChange st a) ((b :: tl2).map TableEvent.search) = _
      rw [ih (handleSearchChange st a) h]
      rfl

/-- C7: debounce coalescing.  A burst of keyword edits inside the quiet
period triggers no fetch while it lasts, and after silence the single timer
expiry issues exactly one fetch whose keyword is the final value of the
burst (and whose type is the currently selected type). -/
theorem C7_debounce_coalescing (st : TableState) (ks : List String) (k : String)
    (h : ks.getLast? = some k) :
    (runTable st (ks.map TableEvent.search)).fetchLog = st.fetchLog ∧
    runTable st (ks.map TableEvent.search ++ [TableEvent.fire]) =
      { st with searchInput := k, pendingKeyword := none,
                fetchLog := st.fetchLog ++ [{ keyword := k, rtype := st.selectedType }] } := by
  constructor
  · rw [runTable_search_burst ks k st h]
  · rw [runTable_append, runTable_search_burst ks k st h]
    rfl

/-- Witness for C7 at the example of the spec: typing e, ex, exa within
the quiet period followed by silence triggers exactly one fetch, with
keyword exa. -/
theorem C7_debounce_coalescing_witness :
    (runTable initialTableState
        ([ "e", "ex", "exa" ].map TableEvent.search)).fetchLog = [] ∧
    runTable initialTableState
        ([ "e", "ex", "exa" ].map TableEvent.search ++ [TableEvent.fire]) =
      { searchInput := "exa", selectedType := "", pendingKeyword := none,
        fetchLog := [{ keyword := "exa", rtype := "" }] } :=
  C7_debounce_coalescing initialTableState [ "e", "ex", "exa" ] "exa" rfl

/-- Counterexample to C4 as stated.  The claim says a type-filter click
cancels any pending debounced keyword timer so that no stale debounced
fetch fires afterwards and no duplicate fetch is issued for the burst.  In
the source, handleTypeChange never touches the timer: after typing e and
then clicking type A before the quiet period elapses, the pending timer
survives the immediate fetch, and its expiry issues a second fetch for the
same burst — here even a byte-for-byte duplicate of the immediate one. -/
theorem C4_filter_cancels_debounce_counterexample :
    (runTable initialTableState
      [TableEvent.search "e", TableEvent.typeClick "A"]).pendingKeyword = some "e" ∧
    (runTable initialTableState
      [TableEvent.search "e", TableEvent.typeClick "A"]).fetchLog =
      [{ keyword := "e", rtype := "A" }] ∧
    (runTable initialTableState
      [TableEvent.search "e", TableEvent.typeClick "A", TableEvent.fire]).fetchLog =
      [{ keyword := "e", rtype := "A" }, { keyword := "e", rtype := "A" }] :=
  ⟨rfl, rfl, rfl⟩

/-- C4 amended: a filter-button action (type-filter change, and likewise
clear-filters) fetches immediately, but it does not cancel a pending
debounced keyword timer; if a debounced fetch was pending it still fires
after the quiet period, issuing an additional fetch with the keyword of the
burst. -/
theorem C4_filter_fetches_immediately_without_cancel (st : TableState) (ty k : String)
    (h : st.pendingKeyword = some k) :
    (handleTypeChange st ty).fetchLog =
      st.fetchLog ++ [{ keyword := st.searchInput,
                        rtype := if st.selectedType = ty then "" else ty }] ∧
    (handleTypeChange st ty).pendingKeyword = some k ∧
    (debounceFire (handleTypeChange st ty)).fetchLog =
      (handleTypeChange st ty).fetchLog ++
        [{ keyword := k, rtype := if st.selectedType = ty then "" else ty }] ∧
    (clearFilters st).fetchLog = st.fetchLog ++ [{ keyword := "", rtype := "" }] ∧
    (clearFilters st).pendingKeyword = some k ∧
    (debounceFire (clearFilters st)).fetchLog =
      (clearFilters st).fetchLog ++ [{ keyword := k, rtype := "" }] := by
  refine ⟨rfl, h, ?_, rfl, h, ?_⟩
  · simp [handleTypeChange, debounceFire, h]
  · simp [clearFilters, debounceFire, h]

/-- Witness for C4 amended at a concrete state with a pending keyword. -/
theorem C4_filter_fetches_immediately_without_cancel_witness :
    (handleTypeChange (handleSearchChange initialTableState "e") "A").pendingKeyword =
      some "e" ∧
    (debounceFire (handleTypeChange (handleSearchChange initialTableState "e") "A")).fetchLog =
      (handleTypeChange (handleSearchChange initialTableState "e") "A").fetchLog ++
        [{ keyword := "e", rtype := if ("" : String) = "A" then "" else "A" }] :=
  ⟨(C4_filter_fetches_immediately_without_cancel
      (handleSearchChange initialTableState "e") "A" "e" rfl).2.1,
   (C4_filter_fetches_immediately_without_cancel
      (handleSearchChange initialTableState "e") "A" "e" rfl).2.2.1⟩

/-! ## Account store: deleteAccount

Embedded from the account store, part_003 lines 143-167.  The remote
delete is the single suspension point; everything that follows a success
response — removing the account from the list, clearing the domain cache,
purging the recent-domains memory, the toast and the finally block — runs
in one synchronous segment.  The bodies of clearAccountCache (domain
store) and removeRecentDomainsByAccount (recent-domains helper) are not
among the provided sources and are modelled from the spec. -/

/-- An account as held by the account store.  Only the identifier is
inspected by deleteAccount; the remaining fields ride along. -/
structure Account where
  id : String
  name : String
  provider : String
deriving Repr, DecidableEq

/-- Outcome of the awaited remote delete call: a success response, a
structured failure response, or a raised error. -/
inductive DeleteOutcome
  | ok
  | fail
  | thrown
deriving Repr, DecidableEq

/-- The slice of application state touched by deleteAccount: the account
store fields it sets, plus the two purged caches.  Cache contents are
irrelevant to the claims, so each cache is carried as the list of keys
present, as (accountId, domainId) pairs. -/
structure AccountStoreState where
  accounts : List Account
  selectedAccountId : Option String
  isDeleting : Bool
  domainCacheKeys : List (String × String)
  recentDomains : List (String × String)
deriving Repr, DecidableEq

/-- Modelled from the spec: clearAccountCache of the domain store, whose
source is not provided — on account deletion, invalidate every cache entry
keyed by that accountId, all domains, spec section 4.7. -/
def clearAccountCache (accountId : String) (ks : List (String × String)) :
    List (String × String) :=
  ks.filter (fun k => k.1 ≠ accountId)

/-- Modelled from the spec: removeRecentDomainsByAccount of the
recent-domains helper, whose source is not provided — purge any recently
viewed domain memory referencing that account, spec section 4.7. -/
def removeRecentDomainsByAccount (accountId : String) (rs : List (String × String)) :
    List (String × String) :=
  rs.filter (fun k => k.1 ≠ accountId)

/-- The synchronous continuation of deleteAccount after the awaited remote
call resolves, part_003 lines 147-166: on success, remove the account and
null the selection if it pointed at it, then clear the domain cache and
the recent-domains memory; on failure or on a raised error, change nothing;
the finally block resets isDeleting in the same segment. -/
def deleteAccountResume (st : AccountStoreState) (id : String)
    (outcome : DeleteOutcome) : AccountStoreState × Bool :=
  match outcome with
  | .ok =>
    let st1 := { st with
      accounts := st.accounts.filter (fun a => a.id ≠ id),
      selectedAccountId :=
        if st.selectedAccountId = some id then none else st.selectedAccountId }
    let st2 := { st1 with domainCacheKeys := clearAccountCache id st1.domainCacheKeys }
    let st3 := { st2 with recentDomains := removeRecentDomainsByAccount id st2.recentDomains }
    ({ st3 with isDeleting := false }, true)
  | .fail => ({ st with isDeleting := false }, false)
  | .thrown => ({ st with isDeleting := false }, false)

/-- deleteAccount, part_003 lines 143-167: set isDeleting, await the remote
delete, then run the resume segment for the outcome. -/
def deleteAccount (st : AccountStoreState) (id : String)
    (outcome : DeleteOutcome) : AccountStoreState × Bool :=
  deleteAccountResume { st with isDeleting := true } id outcome

/-- The states of one deleteAccount call observable by interleaved intents:
the state during the single suspension (after the synchronous prefix set
isDeleting, while the remote delete is awaited) and the final state.  There
is no suspension point between the account removal and the cache purges. -/
def deleteAccountObservable (st : AccountStoreState) (id : String)
    (outcome : DeleteOutcome) : List AccountStoreState :=
  [{ st with isDeleting := true }, (deleteAccount st id outcome).1]

/-- C3: on a success confirmation, every domain-cache key of that account
and its recent-domains memory are purged; and the purge is atomic with the
removal of the account from the accounts list — at no observable state
(suspension point or completion, for any outcome) is the account already
gone from the list while a cache keyed by it is still present. -/
theorem C3_account_deletion_purges_atomically (st : AccountStoreState) (id : String)
    (hmem : id ∈ st.accounts.map Account.id) :
    ((∀ k ∈ (deleteAccount st id .ok).1.domainCacheKeys, k.1 ≠ id) ∧
     (∀ k ∈ (deleteAccount st id .ok).1.recentDomains, k.1 ≠ id)) ∧
    (∀ outcome, ∀ s ∈ deleteAccountObservable st id outcome,
      (∀ a ∈ s.accounts, a.id ≠ id) →
        (∀ k ∈ s.domainCacheKeys, k.1 ≠ id) ∧ (∀ k ∈ s.recentDomains, k.1 ≠ id)) := by
  obtain ⟨a0, ha0, hid0⟩ := List.mem_map.mp hmem
  have hpurge : (∀ k ∈ (deleteAccount st id .ok).1.domainCacheKeys, k.1 ≠ id) ∧
      (∀ k ∈ (deleteAccount st id .ok).1.recentDomains, k.1 ≠ id) := by
    constructor
    · intro k hk
      simp only [deleteAccount, deleteAccountResume, clearAccountCache,
        List.mem_filter, decide_eq_true_eq] at hk
      exact hk.2
    · intro k hk
      simp only [deleteAccount, deleteAccountResume, removeRecentDomainsByAccount,
        List.mem_filter, decide_eq_true_eq] at hk
      exact hk.2
  refine ⟨hpurge, ?_⟩
  intro outcome s hs hgone
  simp only [deleteAccountObservable, List.mem_cons, List.not_mem_nil, or_false] at hs
  rcases hs with rfl | rfl
  · exact absurd hid0 (hgone a0 ha0)
  · cases outcome with
    | ok => exact hpurge
    | fail => exact absurd hid0 (hgone a0 ha0)
    | thrown => exact absurd hid0 (hgone a0 ha0)

/-- First sample account for concrete witnesses. -/
def sampleAccount1 : Account := { id := "a1", name := "acme", provider := "cloudflare" }

/-- Second sample account for concrete witnesses. -/
def sampleAccount2 : Account := { id := "a2", name := "beta", provider := "aliyun" }

/-- A concrete account-store state for witnesses: two accounts, a selection
on the first, and caches keyed by both. -/
def sampleAccountStore : AccountStoreState :=
  { accounts := [sampleAccount1, sampleAccount2],
    selectedAccountId := some "a1", isDeleting := false,
    domainCacheKeys := [("a1", "d1"), ("a1", "d2"), ("a2", "d1")],
    recentDomains := [("a1", "d1"), ("a2", "d2")] }

/-- Witness for C3 at the concrete store: after a confirmed deletion of
account a1, no cache key and no recent-domain entry of a1 survives. -/
theorem C3_account_deletion_purges_atomically_witness :
    (∀ k ∈ (deleteAccount sampleAccountStore "a1" .ok).1.domainCacheKeys, k.1 ≠ "a1") ∧
    (∀ k ∈ (deleteAccount sampleAccountStore "a1" .ok).1.recentDomains, k.1 ≠ "a1") :=
  (C3_account_deletion_purges_atomically sampleAccountStore "a1" (by decide)).1

/-- C10: deleteAccount is atomic on failure and frames its effect on
success.  A failure response or a raised error leaves the accounts list,
the selection and both caches untouched and returns false.  A success
returns true, filters exactly the entries with the deleted id out of the
accounts list — with unique account ids, the prior list with that single
entry removed, order preserved — and nulls selectedAccountId precisely when
it equalled the deleted id. -/
theorem C10_delete_account_failure_atomic_success_frame
    (st : AccountStoreState) (id : String) :
    (∀ outcome, outcome = DeleteOutcome.fail ∨ outcome = DeleteOutcome.thrown →
      (deleteAccount st id outcome).1.accounts = st.accounts ∧
      (deleteAccount st id outcome).1.selectedAccountId = st.selectedAccountId ∧
      (deleteAccount st id outcome).1.domainCacheKeys = st.domainCacheKeys ∧
      (deleteAccount st id outcome).1.recentDomains = st.recentDomains ∧
      (deleteAccount st id outcome).2 = false) ∧
    ((deleteAccount st id .ok).1.accounts = st.accounts.filter (fun a => a.id ≠ id) ∧
     (deleteAccount st id .ok).1.selectedAccountId =
       (if st.selectedAccountId = some id then none else st.selectedAccountId) ∧
     (deleteAccount st id .ok).2 = true) ∧
    (∀ (l₁ l₂ : List Account) (a : Account),
      st.accounts = l₁ ++ a :: l₂ → a.id = id → (st.accounts.map Account.id).Nodup →
        (deleteAccount st id .ok).1.accounts = l₁ ++ l₂) := by
  refine ⟨?_, ⟨rfl, rfl, rfl⟩, ?_⟩
  · rintro outcome (rfl | rfl) <;> exact ⟨rfl, rfl, rfl, rfl, rfl⟩
  · intro l₁ l₂ a hsplit hid hnodup
    rw [hsplit] at hnodup
    rw [List.map_append, List.map_cons, List.nodup_append] at hnodup
    obtain ⟨-, hnd2, hdisj⟩ := hnodup
    have hnotin₁ : a.id ∉ l₁.map Account.id := fun hmem =>
      hdisj hmem (List.mem_cons_self _ _)
    have hnotin₂ : a.id ∉ l₂.map Account.id := (List.nodup_cons.mp hnd2).1
    have hfilter₁ : l₁.filter (fun x => x.id ≠ id) = l₁ :=
      List.filter_eq_self.mpr fun x hx => by
        simp only [ne_eq, decide_eq_true_eq]
        intro hxid
        exact hnotin₁ (List.mem_map.mpr ⟨x, hx, by rw [hxid, hid]⟩)
    have hfilter₂ : l₂.filter (fun x => x.id ≠ id) = l₂ :=
      List.filter_eq_self.mpr fun x hx => by
        simp only [ne_eq, decide_eq_true_eq]
        intro hxid
        exact hnotin₂ (List.mem_map.mpr ⟨x, hx, by rw [hxid, hid]⟩)
    show (st.accounts.filter (fun x => x.id ≠ id)) = l₁ ++ l₂
    rw [hsplit, List.filter_append, List.filter_cons, hfilter₁, hfilter₂]
    simp [hid]

/-- Witness for C10 at the concrete store: a failed delete changes nothing
and returns false; a confirmed delete of a1 removes exactly its entry and
nulls the selection. -/
theorem C10_delete_account_failure_atomic_success_frame_witness :
    ((deleteAccount sampleAccountStore "a1" .fail).1.accounts =
        sampleAccountStore.accounts ∧
      (deleteAccount sampleAccountStore "a1" .fail).1.selectedAccountId =
        sampleAccountStore.selectedAccountId ∧
      (deleteAccount sampleAccountStore "a1" .fail).1.domainCacheKeys =
        sampleAccountStore.domainCacheKeys ∧
      (deleteAccount sampleAccountStore "a1" .fail).1.recentDomains =
        sampleAccountStore.recentDomains ∧
      (deleteAccount sampleAccountStore "a1" .fail).2 = false) ∧
    (deleteAccount sampleAccountStore "a1" .ok).1.accounts = [sampleAccount2] :=
  ⟨(C10_delete_account_failure_atomic_success_frame sampleAccountStore "a1").1
      .fail (Or.inl rfl),
   (C10_delete_account_failure_atomic_success_frame sampleAccountStore "a1").2.2
      [] [sampleAccount2] sampleAccount1 rfl rfl (by decide)⟩

/-! ## Restore poller

Embedded from checkRestoreStatus, part_003 lines 178-202.  The function
awaits one is_restore_completed check; on completed it calls fetchAccounts
and returns; otherwise it sets isRestoring and installs a 500 ms interval
whose async callback awaits another check inside a try block: a completed
response clears the interval, clears isRestoring and calls fetchAccounts; a
raised error logs a diagnostic, clears the interval and clears isRestoring.
The first check is awaited outside any try block.  fetchAccounts, the
remote calls and the logger are abstracted into counters of their
invocations; setInterval keeps firing while an earlier callback is still
awaiting its response, so several ticks of one timer can be pending at
once, which the trace semantics below allows. -/

/-- Result of one is_restore_completed status check: the restore is
complete, not yet complete, or the call raised. -/
inductive CheckResult
  | completed
  | notCompleted
  | errored
deriving Repr, DecidableEq

/-- Poller state: the isRestoring flag of the account store, the installed
interval timers and the ticks currently awaiting a response (by timer id),
plus invocation counters for the externally observable effects. -/
structure PollerState where
  isRestoring : Bool
  activeTimers : List Nat
  nextTimerId : Nat
  pendingTicks : List Nat
  networkCalls : Nat
  fetchAccountsCalls : Nat
  diagnostics : Nat
deriving Repr, DecidableEq

/-- Poller state at startup. -/
def initialPollerState : PollerState :=
  { isRestoring := false, activeTimers := [], nextTimerId := 0, pendingTicks := [],
    networkCalls := 0, fetchAccountsCalls := 0, diagnostics := 0 }

/-- checkRestoreStatus, part_003 lines 178-202, parameterised by the result
of the awaited first check.  Note there is no guard: every invocation
issues the check; completed triggers fetchAccounts; notCompleted sets
isRestoring and installs a fresh interval timer.  An error from the first
check is rethrown (the returned flag) without a diagnostic or any state
change, because only the interval callback body sits in a try block. -/
def checkRestoreStatus (st : PollerState) (first : CheckResult) : PollerState × Bool :=
  let st0 := { st with networkCalls := st.networkCalls + 1 }
  match first with
  | .completed => ({ st0 with fetchAccountsCalls := st0.fetchAccountsCalls + 1 }, false)
  | .notCompleted =>
    ({ st0 with isRestoring := true,
                activeTimers := st0.nextTimerId :: st0.activeTimers,
                nextTimerId := st0.nextTimerId + 1 }, false)
  | .errored => (st0, true)

/-- Events of the interval semantics: a tick of an installed timer starts
(its callback issues the status check and suspends), or a suspended tick
resolves with a result and the callback body runs to completion. -/
inductive PollEvent
  | tickStart (tid : Nat)
  | tickResolve (tid : Nat) (res : CheckResult)

/-- One step of the poll-timer machine, part_003 lines 188-201.  A tick can
only start while its interval is installed; a resolution can only happen
for a pending tick.  The completed arm mirrors lines 191-195, the errored
arm the catch block at lines 196-200. -/
def stepPoller (st : PollerState) : PollEvent → PollerState
  | .tickStart tid =>
    if tid ∈ st.activeTimers then
      { st with networkCalls := st.networkCalls + 1,
                pendingTicks := tid :: st.pendingTicks }
    else st
  | .tickResolve tid res =>
    if tid ∈ st.pendingTicks then
      match res with
      | .completed =>
        { st with pendingTicks := st.pendingTicks.erase tid,
                  activeTimers := st.activeTimers.erase tid,
                  isRestoring := false,
                  fetchAccountsCalls := st.fetchAccountsCalls + 1 }
      | .notCompleted =>
        { st with pendingTicks := st.pendingTicks.erase tid }
      | .errored =>
        { st with pendingTicks := st.pendingTicks.erase tid,
                  activeTimers := st.activeTimers.erase tid,
                  isRestoring := false,
                  diagnostics := st.diagnostics + 1 }
    else st

/-- Run a list of poll events. -/
def runPoller (st : PollerState) : List PollEvent → PollerState
  | [] => st
  | e :: es => runPoller (stepPoller st e) es

/-- Counterexample to C2 as stated.  The claim says starting the poller
while already Restoring (or Completed) is a no-op with no network call, no
state change and no second timer.  In the source there is no such guard:
with the poller already Restoring (isRestoring true, one interval
installed), a second checkRestoreStatus call issues another status check
and, on a not-completed response, installs a second concurrent interval
timer. -/
theorem C2_poller_start_noop_counterexample :
    (checkRestoreStatus initialPollerState .notCompleted).1.isRestoring = true ∧
    (checkRestoreStatus (checkRestoreStatus initialPollerState .notCompleted).1
        .notCompleted).1.networkCalls =
      (checkRestoreStatus initialPollerState .notCompleted).1.networkCalls + 1 ∧
    (checkRestoreStatus (checkRestoreStatus initialPollerState .notCompleted).1
        .notCompleted).1.activeTimers.length = 2 ∧
    (checkRestoreStatus (checkRestoreStatus initialPollerState .notCompleted).1
        .notCompleted).1 ≠
      (checkRestoreStatus initialPollerState .notCompleted).1 :=
  ⟨rfl, rfl, rfl, by decide⟩

/-- C2 amended: checkRestoreStatus has no idempotence guard.  Every
invocation, whatever the current state, issues a status-check network call;
a not-completed response sets isRestoring and installs an additional
polling timer even when one is already active, and a completed response
triggers fetchAccounts again. -/
theorem C2_poller_start_always_checks (st : PollerState) :
    ((checkRestoreStatus st .notCompleted).1.networkCalls = st.networkCalls + 1 ∧
     (checkRestoreStatus st .notCompleted).1.isRestoring = true ∧
     (checkRestoreStatus st .notCompleted).1.activeTimers.length =
       st.activeTimers.length + 1) ∧
    ((checkRestoreStatus st .completed).1.networkCalls = st.networkCalls + 1 ∧
     (checkRestoreStatus st .completed).1.fetchAccountsCalls =
       st.fetchAccountsCalls + 1) :=
  ⟨⟨rfl, rfl, rfl⟩, rfl, rfl⟩

/-- The overlapping-tick interleaving: the interval fires twice before the
first callback's response arrives, then both responses report completion. -/
def overlappingTickTrace : List PollEvent :=
  [.tickStart 0, .tickStart 0, .tickResolve 0 .completed, .tickResolve 0 .completed]

/-- Counterexample to C5 as stated.  The claim says no interleaving of poll
ticks with overlapping responses can trigger the initial load more than
once.  setInterval keeps firing while an earlier async callback is still
awaiting its check, and each callback that sees a completed response calls
fetchAccounts: with two overlapped ticks both reporting completion, the
initial load runs twice (clearInterval is idempotent, but the second
pending callback is already past it). -/
theorem C5_initial_load_once_counterexample :
    (runPoller (checkRestoreStatus initialPollerState .notCompleted).1
      overlappingTickTrace).fetchAccountsCalls = 2 := by
  decide

/-- Sequential tick processing: each tick callback starts and its response
resolves before the interval fires again. -/
def seqTrace (tid : Nat) : List CheckResult → List PollEvent
  | [] => []
  | r :: rs => PollEvent.tickStart tid :: PollEvent.tickResolve tid r :: seqTrace tid rs

theorem runPoller_seqTrace_dead (tid : Nat) (rs : List CheckResult) (st : PollerState)
    (h1 : tid ∉ st.activeTimers) (h2 : st.pendingTicks = []) :
    runPoller st (seqTrace tid rs) = st := by
  induction rs with
  | nil => rfl
  | cons r rs ih =>
    show runPoller (stepPoller (stepPoller st (.tickStart tid)) (.tickResolve tid r))
      (seqTrace tid rs) = st
    rw [show stepPoller st (.tickStart tid) = st by simp [stepPoller, h1]]
    rw [show stepPoller st (.tickResolve tid r) = st by simp [stepPoller, h2]]
    exact ih

/-- C5 amended: when poll-tick responses do not overlap — each response
resolves before the next tick fires — the first completed response clears
the interval, clears isRestoring and triggers the initial load exactly
once, and every later tick of that timer is dead; with overlapping
responses, each callback seeing completion triggers the load again. -/
theorem C5_initial_load_once_sequential (st : PollerState) (tid : Nat)
    (rs more : List CheckResult)
    (hact : st.activeTimers = [tid]) (hpend : st.pendingTicks = [])
    (hrs : ∀ r ∈ rs, r = CheckResult.notCompleted) :
    (runPoller st (seqTrace tid (rs ++ CheckResult.completed :: more))).fetchAccountsCalls =
      st.fetchAccountsCalls + 1 ∧
    (runPoller st (seqTrace tid (rs ++ CheckResult.completed :: more))).isRestoring = false ∧
    (runPoller st (seqTrace tid (rs ++ CheckResult.completed :: more))).activeTimers = [] := by
  induction rs generalizing st with
  | nil =>
    have hstart : stepPoller st (.tickStart tid) =
        { st with networkCalls := st.networkCalls + 1,
                  pendingTicks := tid :: st.pendingTicks } := by
      simp [stepPoller, hact]
    have hres : stepPoller (stepPoller st (.tickStart tid)) (.tickResolve tid .completed) =
        { st with networkCalls := st.networkCalls + 1,
                  pendingTicks := st.pendingTicks,
                  activeTimers := [],
                  isRestoring := false,
                  fetchAccountsCalls := st.fetchAccountsCalls + 1 } := by
      rw [hstart]
      simp [stepPoller, hact, hpend]
    have hrun : runPoller st (seqTrace tid ([] ++ CheckResult.completed :: more)) =
        { st with networkCalls := st.networkCalls + 1,
                  pendingTicks := st.pendingTicks,
                  activeTimers := [],
                  isRestoring := false,
                  fetchAccountsCalls := st.fetchAccountsCalls + 1 } := by
      show runPoller (stepPoller (stepPoller st (.tickStart tid))
        (.tickResolve tid .completed)) (seqTrace tid more) = _
      rw [hres]
      exact runPoller_seqTrace_dead tid more _ (by simp) hpend
    rw [hrun]
    exact ⟨rfl, rfl, rfl⟩
  | cons r rs ih =>
    have hr : r = CheckResult.notCompleted := hrs r (List.mem_cons_self r rs)
    subst hr
    have hstart : stepPoller st (.tickStart tid) =
        { st with networkCalls := st.networkCalls + 1,
                  pendingTicks := tid :: st.pendingTicks } := by
      simp [stepPoller, hact]
    have hres : stepPoller (stepPoller st (.tickStart tid)) (.tickResolve tid .notCompleted) =
        { st with networkCalls := st.networkCalls + 1 } := by
      rw [hstart]
      simp [stepPoller, hpend]
    have hrun : runPoller st
        (seqTrace tid ((CheckResult.notCompleted :: rs) ++ CheckResult.completed :: more)) =
        runPoller { st with networkCalls := st.networkCalls + 1 }
          (seqTrace tid (rs ++ CheckResult.completed :: more)) := by
      show runPoller (stepPoller (stepPoller st (.tickStart tid))
        (.tickResolve tid .notCompleted)) (seqTrace tid (rs ++ CheckResult.completed :: more)) = _
      rw [hres]
    rw [hrun]
    exact ih { st with networkCalls := st.networkCalls + 1 } hact hpend
      (fun x hx => hrs x (List.mem_cons_of_mem _ hx))

/-- Witness for C5 amended: from the state left by a not-completed first
check, one not-completed tick then a completed tick trigger the load
exactly once, and a further tick is dead. -/
theorem C5_initial_load_once_sequential_witness :
    (runPoller (checkRestoreStatus initialPollerState .notCompleted).1
      (seqTrace 0 ([CheckResult.notCompleted] ++ CheckResult.completed ::
        [CheckResult.notCompleted]))).fetchAccountsCalls =
      (checkRestoreStatus initialPollerState .notCompleted).1.fetchAccountsCalls + 1 :=
  (C5_initial_load_once_sequential
    (checkRestoreStatus initialPollerState .notCompleted).1 0
    [CheckResult.notCompleted] [CheckResult.notCompleted] rfl rfl
    (by intro r hr; simpa using hr)).1

/-- Counterexample to C6 as stated.  The claim extends the fail-open error
path to an error raised by the very first status check.  That first await
sits outside any try block: the error is rethrown to the caller, no
diagnostic is logged through the logger, and no state transition happens
— only the failed network call itself is observable. -/
theorem C6_first_check_error_counterexample :
    (checkRestoreStatus initialPollerState .errored).2 = true ∧
    (checkRestoreStatus initialPollerState .errored).1.diagnostics = 0 ∧
    (checkRestoreStatus initialPollerState .errored).1 =
      { initialPollerState with networkCalls := 1 } :=
  ⟨rfl, rfl, rfl⟩

/-- C6 amended: any error during an interval poll tick stops polling by
clearing that interval, clears isRestoring (fail-open, the UI is not left
stuck in Restoring) and logs a diagnostic; an error raised by the initial
status check, before polling begins, is not caught — it propagates to the
caller with no diagnostic and no state change. -/
theorem C6_poll_tick_error_fails_open (st : PollerState) (tid : Nat)
    (h : tid ∈ st.pendingTicks) :
    stepPoller st (.tickResolve tid .errored) =
      { st with pendingTicks := st.pendingTicks.erase tid,
                activeTimers := st.activeTimers.erase tid,
                isRestoring := false,
                diagnostics := st.diagnostics + 1 } ∧
    (∀ s : PollerState, (checkRestoreStatus s .errored).2 = true ∧
      (checkRestoreStatus s .errored).1 =
        { s with networkCalls := s.networkCalls + 1 }) := by
  refine ⟨?_, fun s => ⟨rfl, rfl⟩⟩
  simp [stepPoller, h]

/-- Witness for C6 amended at a concrete pending tick: the errored
resolution clears the timer, clears isRestoring and logs one diagnostic. -/
theorem C6_poll_tick_error_fails_open_witness :
    stepPoller
      { isRestoring := true, activeTimers := [0], nextTimerId := 1,
        pendingTicks := [0], networkCalls := 2, fetchAccountsCalls := 0,
        diagnostics := 0 } (.tickResolve 0 .errored) =
      { isRestoring := false, activeTimers := [], nextTimerId := 1,
        pendingTicks := [], networkCalls := 2, fetchAccountsCalls := 0,
        diagnostics := 1 } :=
  (C6_poll_tick_error_fails_open
      { isRestoring := true, activeTimers := [0], nextTimerId := 1,
        pendingTicks := [0], networkCalls := 2, fetchAccountsCalls := 0,
        diagnostics := 0 } 0 (by decide)).1

end DnsOrchestrator
